import Mathlib

/-!
Shallow embedding of the SmartDocs RAG backend (src/backend/main.py and
src/backend/ingest.py) and proofs about the claims of its specification.

External collaborators (embedding model, vector store, LLM providers, the
slowapi rate-limit window algorithm, the langchain text splitter, and the
hashlib one-way hash) are modelled as explicit inputs or, where a claim is
decided by them, as definitions modelled from the spec and marked as such.
-/

namespace SmartDocs

/-- A chat message from the request history (`class Message` in main.py):
a role string ("user" or "assistant") and content. -/
structure Message where
  role : String
  content : String
deriving DecidableEq, Repr

/-- A retrieved document chunk as the backend sees it: its `page_content`
text and, from its metadata dictionary, the optional "source" entry
(`none` models a chunk whose metadata lacks the "source" key). -/
structure Doc where
  page_content : String
  source : Option String
deriving DecidableEq, Repr

/-- The FastAPI `HTTPException`: a status code and a detail message. -/
structure HTTPErr where
  status_code : Nat
  detail : String
deriving DecidableEq, Repr

/-- The two LLM clients `get_llm` can construct. -/
inductive LLM where
  | gemini (api_key : String)
  | ollama (model : String)
deriving DecidableEq, Repr

/-- The function `get_llm(model_type)` from main.py. `google_api_key` is the value of
`os.getenv("GOOGLE_API_KEY")` (`none` when unset); the Python test `if not api_key`
also treats the empty string as missing. -/
def get_llm (model_type : String) (google_api_key : Option String) :
    Except HTTPErr LLM :=
  if model_type = "gemini" then
    match google_api_key with
    | none => .error ⟨500, "GOOGLE_API_KEY not found in .env"⟩
    | some k =>
        if k = "" then .error ⟨500, "GOOGLE_API_KEY not found in .env"⟩
        else .ok (.gemini k)
  else if model_type = "local" then
    .ok (.ollama "gemma:2b")
  else
    .error ⟨400, "Invalid model_type. Use \x27gemini\x27 or \x27local\x27."⟩

/-- The prompt template string of main.py, verbatim. -/
def template : String :=
  "Answer the question based ONLY on the following context:\n{context}\n\n{history}Question: {question}\n"

/-- Single-pass instantiation of `template`: what
`ChatPromptTemplate.from_template(template)` produces when formatted with
the three variables (each placeholder replaced once by its value). -/
def instantiate_template (context history question : String) : String :=
  "Answer the question based ONLY on the following context:\n" ++ context ++
    "\n\n" ++ history ++ "Question: " ++ question ++ "\n"

/-- The function `format_docs(docs)` from main.py: page contents joined by blank lines. -/
def format_docs (docs : List Doc) : String :=
  String.intercalate "\n\n" (docs.map (·.page_content))

/-- One line of the formatted history transcript, as built by the loop body
of `format_history`. -/
def render_message (m : Message) : String :=
  (if m.role = "user" then "User" else "Assistant") ++ ": " ++ m.content ++ "\n"

/-- The function `format_history(history)` from main.py: empty string on empty history,
otherwise a "Previous conversation:" block over the last 10 messages. -/
def format_history (history : List Message) : String :=
  if history = [] then ""
  else
    let recent_history :=
      if history.length > 10 then history.drop (history.length - 10) else history
    "Previous conversation:\n" ++
      String.join (recent_history.map render_message) ++ "\n"

/-- The prompt the `/chat` chain hands to the LLM: the template instantiated
with `context := format_docs(retrieved docs)`, `history := format_history(...)`
and the question passed through. -/
def build_prompt (question : String) (docs : List Doc) (history : List Message) :
    String :=
  instantiate_template (format_docs docs) (format_history history) question

/-- The `sources` payload computed in `generate`:
`list(set([doc.metadata.get("source", "unknown") for doc in docs]))`.
The Python `set` collapses duplicates and forgets order; it is modelled by
`List.dedup` (one representative per distinct identifier, order arbitrary). -/
def sourcesOf (docs : List Doc) : List String :=
  (docs.map (fun d => d.source.getD "unknown")).dedup

/-- The request data `get_rate_limit_key` reads: the `x-forwarded-for` and
`x-real-ip` headers (`none` when the header is absent), the direct connection
address `request.client.host`, and the `user-agent` header. -/
structure ReqHeaders where
  forwarded_for : Option String
  x_real_ip : Option String
  client_host : String
  user_agent : Option String
deriving DecidableEq, Repr

/-- Python truthiness of an optional header string: an absent header and an
empty-string header are both falsy. -/
def truthy : Option String → Option String
  | none => none
  | some s => if s = "" then none else some s

/-- The IP chosen by `get_rate_limit_key`: the first comma-separated entry of
`x-forwarded-for` (stripped) when that header is truthy, else `x-real-ip`
when truthy, else the direct connection address. -/
def chosen_ip (r : ReqHeaders) : String :=
  match truthy r.forwarded_for with
  | some f => ((f.splitOn ",").headD "").trim
  | none =>
      match truthy r.x_real_ip with
      | some ip => ip
      | none => r.client_host

/-- The pre-hash session key `f"{ip}:{user_agent}"`, with the user-agent
defaulted to `"unknown"` when the header is absent
(`request.headers.get("user-agent", "unknown")`). -/
def session_key (r : ReqHeaders) : String :=
  chosen_ip r ++ ":" ++ r.user_agent.getD "unknown"

/-- The function `get_rate_limit_key(request)` from main.py. The one-way hash
(`hashlib.md5(...).hexdigest()`, an external library primitive) is an
explicit parameter of the model. -/
def get_rate_limit_key (hash : String → String) (r : ReqHeaders) : String :=
  hash (session_key r)

/-- One newline-delimited JSON record of the `/chat` streaming response. -/
inductive SRecord where
  | sources (data : List String)
  | token (data : String)
  | done
  | error (data : String)
deriving DecidableEq, Repr

/-- Whether a record is a terminal record (`done` or `error`). -/
def SRecord.isTerminal : SRecord → Bool
  | .done => true
  | .error _ => true
  | _ => false

/-- Whether a record is a `sources` record. -/
def SRecord.isSources : SRecord → Bool
  | .sources _ => true
  | _ => false

/-- Whether a record is a `token` record. -/
def SRecord.isToken : SRecord → Bool
  | .token _ => true
  | _ => false

/-- The `generate()` async generator of the `/chat` endpoint. Its external
effects are inputs: `retrieval` is the outcome of
`retriever.get_relevant_documents` (which runs inside the `try` before any
record is yielded; `.error` models a raised exception), `tokens` are the
fragments `chain.astream` yields before it either finishes (`failure = none`)
or raises (`failure = some msg`). The single `except` clause turns a raised
exception into one final `error` record. -/
def generate (retrieval : Except String (List Doc)) (tokens : List String)
    (failure : Option String) : List SRecord :=
  match retrieval with
  | .error e => [.error e]
  | .ok docs =>
      .sources (sourcesOf docs) ::
        (tokens.map .token ++
          [match failure with
           | some e => .error e
           | none => .done])

/-- Per-identity window state of the rate limiter: the start time of the
current window and the number of requests counted in it. -/
structure WindowState where
  windowStart : Nat
  count : Nat
deriving DecidableEq, Repr

/-- Modelled from the spec: the window algorithm of the slowapi `Limiter`
(an external dependency; only its configuration `"3/minute"` and key
function are in the source). Per the spec, `allow(identity)` "enforces a
fixed quota (3 requests) within a fixed rolling/fixed window (1 minute);
exceeding it yields a rate-limit error to the caller". Modelled as a fixed
window: a request at time `t` opens a fresh window when none is active or
the active one has elapsed, then is allowed iff the count of the window is below
the quota. Times are in seconds. -/
def rate_limit_allow (quota window t : Nat) (s : Option WindowState) :
    Bool × WindowState :=
  let st :=
    match s with
    | none => ⟨t, 0⟩
    | some st => if st.windowStart + window ≤ t then ⟨t, 0⟩ else st
  if st.count < quota then (true, ⟨st.windowStart, st.count + 1⟩)
  else (false, st)

/-- The body of a `/chat` request (`class ChatRequest`). -/
structure ChatRequest where
  question : String
  model_type : String := "gemini"
  history : List Message := []
deriving DecidableEq, Repr

/-- Outcome of one `/chat` request: denied by the rate limiter before any
pipeline work, rejected with an `HTTPException` from `get_llm`, or answered
with a streamed record sequence. -/
inductive ChatOutcome where
  | rateLimited
  | httpError (e : HTTPErr)
  | streamed (records : List SRecord)
deriving DecidableEq, Repr

/-- The `/chat` endpoint under the `@limiter.limit("3/minute")` decorator:
the limiter (keyed on the derived identity, state `s`) runs first; only an
allowed request reaches `get_llm` and the streaming pipeline. `retrieval`,
`tokens` and `failure` are the external effects passed to `generate`. -/
def chat (t : Nat) (s : Option WindowState) (req : ChatRequest)
    (google_api_key : Option String) (retrieval : Except String (List Doc))
    (tokens : List String) (failure : Option String) :
    ChatOutcome × WindowState :=
  let (ok, s1) := rate_limit_allow 3 60 t s
  if ok then
    match get_llm req.model_type google_api_key with
    | .error e => (.httpError e, s1)
    | .ok _ => (.streamed (generate retrieval tokens failure), s1)
  else (.rateLimited, s1)

/-- Modelled from the spec: the character-level fallback of the external
`RecursiveCharacterTextSplitter` (its `""` separator), producing chunks of
at most `size` characters where "consecutive chunks overlap by the overlap
size". Each step emits `size` characters and advances by `size - overlap`. -/
def char_chunks (size overlap : Nat) (l : List Char) : List (List Char) :=
  if l = [] then []
  else if size ≤ overlap then [l]
  else if l.length ≤ size then [l]
  else l.take size :: char_chunks size overlap (l.drop (size - overlap))
termination_by l.length
decreasing_by
  simp only [List.length_drop]
  omega

/-- The separator priority list passed to the splitter in ingest.py:
paragraph boundary, line boundary, word boundary, then any character. -/
def separators : List String := ["\n\n", "\n", " ", ""]

/-- Modelled from the spec: the external `RecursiveCharacterTextSplitter`.
Per the spec it "splits text preferentially at paragraph boundaries, then
line boundaries, then word boundaries, then arbitrary character boundaries,
in that priority order, never exceeding the maximum size". A text short
enough is kept whole; otherwise it is split at the current separator and
every piece still too long is split recursively at the next separator, down
to the character-level fallback. -/
def recursive_split (size overlap : Nat) : List String → String → List String
  | [], t => (char_chunks size overlap t.toList).map String.mk
  | sep :: rest, t =>
      if t.length ≤ size then [t]
      else
        ((t.splitOn sep).map (fun p =>
          if p.length ≤ size then [p] else recursive_split size overlap rest p)).flatten

/-- Splitting one text with the ingest.py separator list, dropping empty
pieces (as the external splitter does). -/
def split_text (size overlap : Nat) (t : String) : List String :=
  (recursive_split size overlap separators t).filter (fun c => c ≠ "")

/-- A raw loaded document: its source identifier (file path) and text. -/
structure RawDoc where
  source : String
  text : String
deriving DecidableEq, Repr

/-- Chunking of one document (`split_documents`): every chunk of its text, tagged
with the inherited source metadata. -/
def split_document (size overlap : Nat) (d : RawDoc) : List Doc :=
  (split_text size overlap d.text).map (fun c => ⟨c, some d.source⟩)

/-- One file of the data directory. -/
structure FileEntry where
  name : String
  text : String
deriving DecidableEq, Repr

/-- The file-system state `create_vector_db` interacts with: the data
directory (`none` when `../data` does not exist) and whether the persisted
index directory `./chroma_db` exists. -/
structure FS where
  dataDir : Option (List FileEntry)
  dbExists : Bool
deriving DecidableEq, Repr

/-- Loading, `DirectoryLoader(DATA_PATH, glob="*.md", loader_cls=TextLoader).load()`:
the Markdown files of the directory, each loaded as one document. -/
def load_documents (files : List FileEntry) : List RawDoc :=
  (files.filter (fun f => f.name.endsWith ".md")).map (fun f => ⟨f.name, f.text⟩)

/-- A raised Python exception (ingest.py could only meaningfully raise
`IOError`, per the spec). -/
inductive PyException where
  | ioError (msg : String)
deriving DecidableEq, Repr

/-- Observable outcome of one `create_vector_db()` run: what it printed,
whether it deleted the existing index directory, whether it wrote a fresh
index, and the exception it raised, if any. -/
structure IngestResult where
  prints : List String
  deletedDb : Bool
  wroteDb : Bool
  raised : Option PyException
deriving DecidableEq, Repr

/-- The function `create_vector_db()` from ingest.py. On a missing data directory it
prints an error and returns; otherwise it loads the Markdown files, chunks
them (chunk size 1000, overlap 200), deletes the existing index directory
when present, and writes the fresh index. -/
def create_vector_db (fs : FS) : IngestResult :=
  match fs.dataDir with
  | none =>
      { prints := ["Error: Data directory \x27../data\x27 not found."],
        deletedDb := false, wroteDb := false, raised := none }
  | some files =>
      let documents := load_documents files
      let chunks := documents.flatMap (split_document 1000 200)
      { prints :=
          ["Loading documents from ../data...",
           "Loaded " ++ toString documents.length ++ " documents.",
           "Split into " ++ toString chunks.length ++ " chunks.",
           "Creating embeddings (this may take a moment)...",
           "Saving to ChromaDB at ./chroma_db..."] ++
          (if fs.dbExists then ["Cleared existing database."] else []) ++
          ["Success! Vector database created."],
        deletedDb := fs.dbExists, wroteDb := true, raised := none }

/-! ## Theorems about the claims -/

/-- C7: for every question, retrieved-chunk list and history, the built
prompt is exactly the fixed template — whose verbatim text, including the
framing instruction to answer based ONLY on the supplied context, is the
`template` string — instantiated with the retrieved chunk texts joined by
blank lines in retrieval-rank order, the formatted history (empty string on
empty history), and the question. -/
theorem prompt_is_exact_template (q : String) (docs : List Doc)
    (history : List Message) :
    build_prompt q docs history =
      "Answer the question based ONLY on the following context:\n" ++
        String.intercalate "\n\n" (docs.map (·.page_content)) ++ "\n\n" ++
        format_history history ++ "Question: " ++ q ++ "\n" ∧
    instantiate_template "{context}" "{history}" "{question}" = template ∧
    format_history [] = "" := by
  refine ⟨rfl, rfl, ?_⟩
  simp [format_history]

/-- C8: the formatted transcript covers exactly the most recent 10 history
messages in their original order (older ones silently dropped), all of them
when there are 10 or fewer, and an empty history yields an empty string. -/
theorem history_window (h : List Message) :
    format_history [] = "" ∧
    (h ≠ [] → format_history h =
      "Previous conversation:\n" ++
        String.join ((h.drop (h.length - 10)).map render_message) ++ "\n") ∧
    (h.length ≤ 10 → h.drop (h.length - 10) = h) ∧
    (h.drop (h.length - 10)).length = min 10 h.length := by
  refine ⟨by simp [format_history], ?_, ?_, ?_⟩
  · intro hne
    rw [format_history, if_neg hne]
    by_cases hlen : h.length > 10
    · rw [if_pos hlen]
    · rw [if_neg hlen]
      have : h.length - 10 = 0 := by omega
      rw [this, List.drop_zero]
  · intro hle
    have : h.length - 10 = 0 := by omega
    rw [this, List.drop_zero]
  · rw [List.length_drop]
    omega

/-- C8 witness: a concrete two-message history is rendered whole. -/
theorem history_window_witness :
    format_history [] = "" ∧
    format_history [⟨"user", "hi"⟩, ⟨"assistant", "hello"⟩] =
      "Previous conversation:\n" ++
        String.join (([(⟨"user", "hi"⟩ : Message), ⟨"assistant", "hello"⟩].drop
          ([(⟨"user", "hi"⟩ : Message), ⟨"assistant", "hello"⟩].length - 10)).map
            render_message) ++ "\n" ∧
    [(⟨"user", "hi"⟩ : Message), ⟨"assistant", "hello"⟩].drop
      ([(⟨"user", "hi"⟩ : Message), ⟨"assistant", "hello"⟩].length - 10) =
      [⟨"user", "hi"⟩, ⟨"assistant", "hello"⟩] :=
  ⟨(history_window [⟨"user", "hi"⟩, ⟨"assistant", "hello"⟩]).1,
   (history_window [⟨"user", "hi"⟩, ⟨"assistant", "hello"⟩]).2.1 (by decide),
   (history_window [⟨"user", "hi"⟩, ⟨"assistant", "hello"⟩]).2.2.1 (by decide)⟩

/-- C10: the `sources` payload has no duplicate identifier, contains exactly
the identifiers of the retrieved chunks (each chunk contributing its source
metadata, defaulted to "unknown" when absent), and a chunk lacking source
metadata is reported as "unknown". Order is not guaranteed (the Python set
forgets it). -/
theorem sources_deduplicated (docs : List Doc) (d : Doc) :
    (sourcesOf docs).Nodup ∧
    (∀ s, s ∈ sourcesOf docs ↔ s ∈ docs.map (fun d => d.source.getD "unknown")) ∧
    (d ∈ docs → d.source = none → "unknown" ∈ sourcesOf docs) := by
  refine ⟨List.nodup_dedup _, fun s => List.mem_dedup, fun hd hs => ?_⟩
  rw [sourcesOf, List.mem_dedup]
  exact List.mem_map.mpr ⟨d, hd, by rw [hs]; rfl⟩

/-- C10 witness: two chunks sharing a source and one without metadata. -/
theorem sources_deduplicated_witness :
    (sourcesOf [⟨"a", some "f.md"⟩, ⟨"b", some "f.md"⟩, ⟨"c", none⟩]).Nodup ∧
    "unknown" ∈ sourcesOf [⟨"a", some "f.md"⟩, ⟨"b", some "f.md"⟩, ⟨"c", none⟩] :=
  ⟨(sources_deduplicated [⟨"a", some "f.md"⟩, ⟨"b", some "f.md"⟩, ⟨"c", none⟩]
      ⟨"c", none⟩).1,
   (sources_deduplicated [⟨"a", some "f.md"⟩, ⟨"b", some "f.md"⟩, ⟨"c", none⟩]
      ⟨"c", none⟩).2.2 (by decide) rfl⟩

/-- C4: `get_llm` raises a 500 `HTTPException` with an explanatory message
when the "gemini" variant is selected and no API key is configured, raises a
400 `HTTPException` for any selector other than "gemini" and "local", and
the two error classes are distinct. -/
theorem get_llm_error_taxonomy (mt : String) (key : Option String) :
    ((key = none ∨ key = some "") →
      get_llm "gemini" key =
        .error ⟨500, "GOOGLE_API_KEY not found in .env"⟩) ∧
    (mt ≠ "gemini" → mt ≠ "local" →
      get_llm mt key =
        .error ⟨400, "Invalid model_type. Use \x27gemini\x27 or \x27local\x27."⟩) ∧
    get_llm "gemini" none ≠ get_llm "bogus" none := by
  refine ⟨fun hk => ?_, fun h1 h2 => ?_, ?_⟩
  · rcases hk with rfl | rfl <;> rfl
  · rw [get_llm.eq_def, if_neg h1, if_neg h2]
  · have hg : get_llm "gemini" none =
        .error ⟨500, "GOOGLE_API_KEY not found in .env"⟩ := rfl
    have hb : get_llm "bogus" none =
        .error ⟨400, "Invalid model_type. Use \x27gemini\x27 or \x27local\x27."⟩ := rfl
    rw [hg, hb]
    intro hcontra
    injection hcontra with h
    injection h with h1 h2
    omega

/-- C4 witness: the concrete selector "bogus" with no key in the
environment. -/
theorem get_llm_error_taxonomy_witness :
    get_llm "gemini" none = .error ⟨500, "GOOGLE_API_KEY not found in .env"⟩ ∧
    get_llm "bogus" none =
      .error ⟨400, "Invalid model_type. Use \x27gemini\x27 or \x27local\x27."⟩ ∧
    get_llm "gemini" none ≠ get_llm "bogus" none :=
  ⟨(get_llm_error_taxonomy "bogus" none).1 (Or.inl rfl),
   (get_llm_error_taxonomy "bogus" none).2.1 (by decide) (by decide),
   (get_llm_error_taxonomy "bogus" none).2.2⟩

/-- C5 counterexample: with the data directory missing, `create_vector_db`
raises nothing — in particular no `IOError` — and merely prints an error
message before returning. -/
theorem ingest_missing_dir_no_ioerror_cx :
    (create_vector_db ⟨none, true⟩).raised = none ∧
    (create_vector_db ⟨none, true⟩).prints =
      ["Error: Data directory \x27../data\x27 not found."] :=
  ⟨rfl, rfl⟩

/-- C5 amended: when the source data directory does not exist, ingestion
prints the missing-directory error and returns normally, raising no
`IOError` and neither deleting nor writing the persisted index. -/
theorem ingest_missing_dir_prints_and_returns (fs : FS)
    (h : fs.dataDir = none) :
    create_vector_db fs =
      { prints := ["Error: Data directory \x27../data\x27 not found."],
        deletedDb := false, wroteDb := false, raised := none } := by
  obtain ⟨dir, db⟩ := fs
  cases h
  rfl

/-- C5 witness: the missing-directory state, with and without a prior
index. -/
theorem ingest_missing_dir_prints_and_returns_witness :
    create_vector_db ⟨none, true⟩ =
      { prints := ["Error: Data directory \x27../data\x27 not found."],
        deletedDb := false, wroteDb := false, raised := none } ∧
    create_vector_db ⟨none, false⟩ =
      { prints := ["Error: Data directory \x27../data\x27 not found."],
        deletedDb := false, wroteDb := false, raised := none } :=
  ⟨ingest_missing_dir_prints_and_returns ⟨none, true⟩ rfl,
   ingest_missing_dir_prints_and_returns ⟨none, false⟩ rfl⟩

/-- C6: a missing source directory leaves the persisted index untouched
(no deletion, no write), and the prior index is only ever deleted on a run
that found the source directory and proceeds to write the fresh index. -/
theorem ingest_preserves_index_on_missing_dir (fs : FS) :
    (fs.dataDir = none →
      (create_vector_db fs).deletedDb = false ∧
      (create_vector_db fs).wroteDb = false) ∧
    ((create_vector_db fs).deletedDb = true →
      fs.dataDir.isSome ∧ (create_vector_db fs).wroteDb = true) := by
  obtain ⟨dir, db⟩ := fs
  cases dir with
  | none => exact ⟨fun _ => ⟨rfl, rfl⟩, by simp [create_vector_db]⟩
  | some files =>
      constructor
      · intro hc
        simp at hc
      · intro _
        exact ⟨rfl, rfl⟩

/-- C6 witness: the missing-directory state and a deleting run. -/
theorem ingest_preserves_index_on_missing_dir_witness :
    ((create_vector_db ⟨none, true⟩).deletedDb = false ∧
      (create_vector_db ⟨none, true⟩).wroteDb = false) ∧
    ((some ([] : List FileEntry)).isSome ∧
      (create_vector_db ⟨some [], true⟩).wroteDb = true) :=
  ⟨(ingest_preserves_index_on_missing_dir ⟨none, true⟩).1 rfl,
   (ingest_preserves_index_on_missing_dir ⟨some [], true⟩).2 rfl⟩

/-- Left cancellation for string concatenation. -/
theorem string_append_left_cancel {s t u : String} (h : s ++ t = s ++ u) :
    t = u := by
  apply String.ext
  have hd := congrArg String.data h
  rw [String.data_append, String.data_append] at hd
  exact List.append_cancel_left hd

/-- C3 counterexample: a request with no user-agent header and a request
whose user-agent header is the literal string "unknown" have differing
user-agent headers and the same chosen address, yet produce the same
pre-hash session key — hence the same opaque identity under any hash. -/
theorem rate_limit_key_ua_default_cx :
    (⟨none, none, "203.0.113.7", none⟩ : ReqHeaders).user_agent ≠
      (⟨none, none, "203.0.113.7", some "unknown"⟩ : ReqHeaders).user_agent ∧
    chosen_ip ⟨none, none, "203.0.113.7", none⟩ =
      chosen_ip ⟨none, none, "203.0.113.7", some "unknown"⟩ ∧
    session_key ⟨none, none, "203.0.113.7", none⟩ =
      session_key ⟨none, none, "203.0.113.7", some "unknown"⟩ :=
  ⟨by simp, rfl, rfl⟩

/-- C3 amended: the rate-limit key is the one-way hash of the chosen
address concatenated (with ":") with the user-agent value, where an absent
user-agent defaults to "unknown"; the chosen address is the first
comma-separated entry (stripped) of a non-empty x-forwarded-for header,
else a non-empty x-real-ip header, else the direct connection address.
Requests with identical (non-empty) forwarded-for and identical user-agent
headers get the same identity; requests with the same chosen address whose
defaulted user-agent values differ get different identities for an
injective hash (the md5 used by the code is collision-free only in that idealized
sense, and an absent user-agent collides with the literal "unknown"). -/
theorem rate_limit_key_derivation (hash : String → String)
    (hinj : Function.Injective hash) (r r1 r2 : ReqHeaders) (f : String) :
    get_rate_limit_key hash r =
      hash (chosen_ip r ++ ":" ++ r.user_agent.getD "unknown") ∧
    (r.forwarded_for = some f → f ≠ "" →
      chosen_ip r = ((f.splitOn ",").headD "").trim) ∧
    (∀ ip, truthy r.forwarded_for = none → r.x_real_ip = some ip → ip ≠ "" →
      chosen_ip r = ip) ∧
    (truthy r.forwarded_for = none → truthy r.x_real_ip = none →
      chosen_ip r = r.client_host) ∧
    (r1.forwarded_for = r2.forwarded_for → truthy r1.forwarded_for ≠ none →
      r1.user_agent = r2.user_agent →
      get_rate_limit_key hash r1 = get_rate_limit_key hash r2) ∧
    (chosen_ip r1 = chosen_ip r2 →
      r1.user_agent.getD "unknown" ≠ r2.user_agent.getD "unknown" →
      get_rate_limit_key hash r1 ≠ get_rate_limit_key hash r2) := by
  refine ⟨rfl, ?_, ?_, ?_, ?_, ?_⟩
  · intro hf hne
    rw [chosen_ip, hf]
    simp [truthy, hne]
  · intro ip h1 h2 h3
    rw [chosen_ip, h1, h2]
    simp [truthy, h3]
  · intro h1 h2
    rw [chosen_ip, h1, h2]
  · intro h12 hne hua
    rcases hf : truthy r1.forwarded_for with _ | f0
    · exact absurd hf hne
    · have hf2 : truthy r2.forwarded_for = some f0 := by rw [← h12]; exact hf
      show hash (session_key r1) = hash (session_key r2)
      have hc : chosen_ip r1 = chosen_ip r2 := by
        rw [chosen_ip, chosen_ip, hf, hf2]
      rw [session_key, session_key, hc, hua]
  · intro hip hua hkey
    have hs : session_key r1 = session_key r2 := hinj hkey
    rw [session_key, session_key, hip] at hs
    exact hua (string_append_left_cancel hs)

/-- C3 witness: concrete requests exercising each selection branch, header
equality, and user-agent distinctness, with the identity hash. -/
theorem rate_limit_key_derivation_witness :
    chosen_ip ⟨some "1.2.3.4, 5.6.7.8", some "9.9.9.9", "10.0.0.1", some "Mozilla"⟩ =
      (("1.2.3.4, 5.6.7.8".splitOn ",").headD "").trim ∧
    chosen_ip ⟨none, some "9.9.9.9", "10.0.0.1", some "Mozilla"⟩ = "9.9.9.9" ∧
    chosen_ip ⟨none, none, "10.0.0.1", some "Mozilla"⟩ = "10.0.0.1" ∧
    get_rate_limit_key id
        ⟨some "1.2.3.4, 5.6.7.8", some "9.9.9.9", "10.0.0.1", some "Mozilla"⟩ =
      get_rate_limit_key id
        ⟨some "1.2.3.4, 5.6.7.8", none, "10.0.0.2", some "Mozilla"⟩ ∧
    get_rate_limit_key id ⟨none, none, "10.0.0.1", some "Mozilla"⟩ ≠
      get_rate_limit_key id ⟨none, none, "10.0.0.1", some "Other"⟩ :=
  ⟨(rate_limit_key_derivation id Function.injective_id
      ⟨some "1.2.3.4, 5.6.7.8", some "9.9.9.9", "10.0.0.1", some "Mozilla"⟩
      ⟨none, none, "", none⟩ ⟨none, none, "", none⟩
      "1.2.3.4, 5.6.7.8").2.1 rfl (by decide),
   (rate_limit_key_derivation id Function.injective_id
      ⟨none, some "9.9.9.9", "10.0.0.1", some "Mozilla"⟩
      ⟨none, none, "", none⟩ ⟨none, none, "", none⟩ "").2.2.1
      "9.9.9.9" rfl rfl (by decide),
   (rate_limit_key_derivation id Function.injective_id
      ⟨none, none, "10.0.0.1", some "Mozilla"⟩
      ⟨none, none, "", none⟩ ⟨none, none, "", none⟩ "").2.2.2.1 rfl rfl,
   (rate_limit_key_derivation id Function.injective_id
      ⟨none, none, "", none⟩
      ⟨some "1.2.3.4, 5.6.7.8", some "9.9.9.9", "10.0.0.1", some "Mozilla"⟩
      ⟨some "1.2.3.4, 5.6.7.8", none, "10.0.0.2", some "Mozilla"⟩
      "").2.2.2.2.1 rfl (by simp [truthy]) rfl,
   (rate_limit_key_derivation id Function.injective_id
      ⟨none, none, "", none⟩
      ⟨none, none, "10.0.0.1", some "Mozilla"⟩
      ⟨none, none, "10.0.0.1", some "Other"⟩ "").2.2.2.2.2 rfl (by decide)⟩

/-- A predicate false on every `token` record counts zero tokens. -/
theorem countP_map_token (p : SRecord → Bool)
    (hp : ∀ s, p (SRecord.token s) = false) (l : List String) :
    (l.map SRecord.token).countP p = 0 := by
  induction l with
  | nil => rfl
  | cons a l ih => simp [List.countP_cons, hp, ih]

/-- Framing facts about a record list of the shape
`sources :: tokens ++ [terminal]`. -/
theorem framing_shape (s : List String) (tokens : List String) (term : SRecord)
    (hT : term.isTerminal = true) (hTok : term.isToken = false)
    (hS : term.isSources = false) :
    ((SRecord.sources s :: (tokens.map SRecord.token ++ [term])).countP
        (fun r => r.isTerminal) = 1) ∧
    ((SRecord.sources s :: (tokens.map SRecord.token ++ [term])).getLast? =
        some term) ∧
    ((SRecord.sources s :: (tokens.map SRecord.token ++ [term])).countP
        (fun r => r.isSources) = 1) ∧
    (∀ i (hi : i <
        (SRecord.sources s :: (tokens.map SRecord.token ++ [term])).length),
      ((SRecord.sources s :: (tokens.map SRecord.token ++ [term])).get
          ⟨i, hi⟩).isToken = true →
      0 < i ∧ i + 1 <
        (SRecord.sources s :: (tokens.map SRecord.token ++ [term])).length) := by
  have hlen : (SRecord.sources s :: (tokens.map SRecord.token ++ [term])).length
      = tokens.length + 2 := by
    simp
  refine ⟨?_, ?_, ?_, ?_⟩
  · rw [List.countP_cons, List.countP_append,
      countP_map_token _ (fun _ => rfl) tokens]
    simp [List.countP_cons, hT]
    rfl
  · rw [← List.cons_append, List.getLast?_concat]
  · rw [List.countP_cons, List.countP_append,
      countP_map_token _ (fun _ => rfl) tokens]
    simp [List.countP_cons, hS]
    rfl
  · intro i hi ht
    cases i with
    | zero =>
        have h0 : (SRecord.sources s ::
            (tokens.map SRecord.token ++ [term])).get ⟨0, hi⟩ =
            .sources s := rfl
        rw [h0] at ht
        simp [SRecord.isToken] at ht
    | succ j =>
        refine ⟨Nat.succ_pos j, ?_⟩
        by_contra hno
        have hi' : j + 1 < tokens.length + 2 := by rw [← hlen]; exact hi
        have hno' : ¬ (j + 1 + 1 < tokens.length + 2) := by
          rw [← hlen]; exact hno
        have hj : j = tokens.length := by omega
        have hg : (SRecord.sources s ::
            (tokens.map SRecord.token ++ [term])).get ⟨j + 1, hi⟩ = term := by
          rw [List.get_eq_getElem, List.getElem_cons_succ]
          exact List.getElem_concat_length _ _ j (by rw [List.length_map, hj]) _
        rw [hg, hTok] at ht
        cases ht

/-- C1 counterexample: when `retriever.get_relevant_documents` raises
(it runs inside the `try` before anything is yielded), the emitted stream
is a single `error` record — it does not begin with a `sources` record. -/
theorem chat_stream_no_sources_cx :
    generate (.error "boom") [] none = [.error "boom"] ∧
    (generate (.error "boom") [] none).countP (fun r => r.isSources) = 0 ∧
    (generate (.error "boom") [] none).head? = some (.error "boom") :=
  ⟨rfl, rfl, rfl⟩

/-- C1 amended: every emitted stream ends with exactly one terminal record
(`done` or `error`) and nothing follows it, `token` records occur only
strictly between the first and the terminal record, and whenever the
initial retrieval succeeds the stream begins with exactly one `sources`
record; when retrieval itself fails the stream is the single `error`
record (so no `sources` record precedes it). -/
theorem chat_stream_framing (retrieval : Except String (List Doc))
    (tokens : List String) (failure : Option String) :
    ((generate retrieval tokens failure).countP (fun r => r.isTerminal) = 1) ∧
    (∃ r, (generate retrieval tokens failure).getLast? = some r ∧
      r.isTerminal = true) ∧
    (∀ docs, retrieval = .ok docs →
      (generate retrieval tokens failure).countP (fun r => r.isSources) = 1 ∧
      (generate retrieval tokens failure).head? =
        some (.sources (sourcesOf docs))) ∧
    (∀ e, retrieval = .error e →
      generate retrieval tokens failure = [.error e]) ∧
    (∀ i (hi : i < (generate retrieval tokens failure).length),
      ((generate retrieval tokens failure).get ⟨i, hi⟩).isToken = true →
      0 < i ∧ i + 1 < (generate retrieval tokens failure).length) := by
  cases retrieval with
  | error e =>
      refine ⟨rfl, ⟨.error e, rfl, rfl⟩, fun d hd => Except.noConfusion hd,
        fun e' he => ?_, fun i hi ht => ?_⟩
      · injection he with h
        exact congrArg (fun x => [SRecord.error x]) h
      · have h1 : i < 1 := hi
        have h0 : i = 0 := by omega
        subst h0
        have hg : (generate (.error e) tokens failure).get ⟨0, hi⟩ =
            .error e := rfl
        rw [hg] at ht
        simp [SRecord.isToken] at ht
  | ok docs =>
      cases failure with
      | none =>
          obtain ⟨h1, h2, h3, h4⟩ :=
            framing_shape (sourcesOf docs) tokens .done rfl rfl rfl
          exact ⟨h1, ⟨.done, h2, rfl⟩,
            fun d hd => by
              injection hd with hd'
              subst hd'
              exact ⟨h3, rfl⟩,
            fun e he => Except.noConfusion he, h4⟩
      | some f =>
          obtain ⟨h1, h2, h3, h4⟩ :=
            framing_shape (sourcesOf docs) tokens (.error f) rfl rfl rfl
          exact ⟨h1, ⟨.error f, h2, rfl⟩,
            fun d hd => by
              injection hd with hd'
              subst hd'
              exact ⟨h3, rfl⟩,
            fun e he => Except.noConfusion he, h4⟩

/-- C1 witness: a successful retrieval with one token and a clean finish,
and a failing retrieval. -/
theorem chat_stream_framing_witness :
    (generate (.ok [⟨"c", some "f.md"⟩]) ["tok"] none).countP
      (fun r => r.isTerminal) = 1 ∧
    (generate (.ok [⟨"c", some "f.md"⟩]) ["tok"] none).countP
      (fun r => r.isSources) = 1 ∧
    (generate (.ok [⟨"c", some "f.md"⟩]) ["tok"] none).head? =
      some (.sources (sourcesOf [⟨"c", some "f.md"⟩])) ∧
    generate (.error "down") ["tok"] none = [.error "down"] ∧
    (0 < 1 ∧ 1 + 1 < (generate (.ok [⟨"c", some "f.md"⟩]) ["tok"] none).length) :=
  ⟨(chat_stream_framing (.ok [⟨"c", some "f.md"⟩]) ["tok"] none).1,
   ((chat_stream_framing (.ok [⟨"c", some "f.md"⟩]) ["tok"] none).2.2.1
      [⟨"c", some "f.md"⟩] rfl).1,
   ((chat_stream_framing (.ok [⟨"c", some "f.md"⟩]) ["tok"] none).2.2.1
      [⟨"c", some "f.md"⟩] rfl).2,
   (chat_stream_framing (.error "down") ["tok"] none).2.2.2.1 "down" rfl,
   (chat_stream_framing (.ok [⟨"c", some "f.md"⟩]) ["tok"] none).2.2.2.2 1
      (by decide) (by decide)⟩

/-- The allow/deny decisions of the limiter for a sequence of request times from
one fixed derived identity, starting with no counter state. -/
def allow_trace (times : List Nat) : List Bool :=
  (times.foldl
    (fun (acc : List Bool × Option WindowState) t =>
      let r := rate_limit_allow 3 60 t acc.2
      (acc.1 ++ [r.1], some r.2))
    (([] : List Bool), (none : Option WindowState))).1

/-- C2: for a fixed derived identity, three requests within one minute are
allowed and the fourth is denied; once the window has elapsed a further
request is allowed again. A denied request is answered `rateLimited` with
the limiter state unchanged — no pipeline work happens — while an allowed
request never yields the rate-limit outcome. -/
theorem rate_limit_quota (t1 t2 t3 t4 t5 : Nat) (_h12 : t1 ≤ t2) (h23 : t2 ≤ t3)
    (h34 : t3 ≤ t4) (hin : t4 < t1 + 60) (hout : t1 + 60 ≤ t5) :
    allow_trace [t1, t2, t3, t4, t5] = [true, true, true, false, true] ∧
    (∀ t s req key retrieval tokens failure,
      (rate_limit_allow 3 60 t s).1 = false →
      chat t s req key retrieval tokens failure =
        (.rateLimited, (rate_limit_allow 3 60 t s).2)) ∧
    (∀ t s req key retrieval tokens failure,
      (rate_limit_allow 3 60 t s).1 = true →
      (chat t s req key retrieval tokens failure).1 ≠ .rateLimited) := by
  have A1 : rate_limit_allow 3 60 t1 none = (true, ⟨t1, 1⟩) := by
    simp [rate_limit_allow]
  have A2 : rate_limit_allow 3 60 t2 (some ⟨t1, 1⟩) = (true, ⟨t1, 2⟩) := by
    simp only [rate_limit_allow]
    rw [if_neg (by omega : ¬ t1 + 60 ≤ t2)]
    norm_num
  have A3 : rate_limit_allow 3 60 t3 (some ⟨t1, 2⟩) = (true, ⟨t1, 3⟩) := by
    simp only [rate_limit_allow]
    rw [if_neg (by omega : ¬ t1 + 60 ≤ t3)]
    norm_num
  have A4 : rate_limit_allow 3 60 t4 (some ⟨t1, 3⟩) = (false, ⟨t1, 3⟩) := by
    simp only [rate_limit_allow]
    rw [if_neg (by omega : ¬ t1 + 60 ≤ t4)]
    norm_num
  have A5 : rate_limit_allow 3 60 t5 (some ⟨t1, 3⟩) = (true, ⟨t5, 1⟩) := by
    simp only [rate_limit_allow]
    rw [if_pos (by omega : t1 + 60 ≤ t5)]
    norm_num
  refine ⟨?_, ?_, ?_⟩
  · simp only [allow_trace, List.foldl, A1, A2, A3, A4, A5]
    rfl
  · intro t s req key retrieval tokens failure hdeny
    rw [chat]
    rcases hr : rate_limit_allow 3 60 t s with ⟨ok, s1⟩
    rw [hr] at hdeny
    simp at hdeny
    subst hdeny
    rfl
  · intro t s req key retrieval tokens failure hallow
    rw [chat]
    rcases hr : rate_limit_allow 3 60 t s with ⟨ok, s1⟩
    rw [hr] at hallow
    simp at hallow
    subst hallow
    cases hg : get_llm req.model_type key <;> simp [hg]

/-- C2 witness: requests at seconds 0, 10, 20, 30 and 60 from one identity,
with one concrete denied call and one concrete allowed call. -/
theorem rate_limit_quota_witness :
    allow_trace [0, 10, 20, 30, 60] = [true, true, true, false, true] ∧
    chat 30 (some ⟨0, 3⟩) ⟨"q", "local", []⟩ none (.ok []) [] none =
      (.rateLimited, (rate_limit_allow 3 60 30 (some ⟨0, 3⟩)).2) ∧
    (chat 0 none ⟨"q", "local", []⟩ none (.ok []) [] none).1 ≠ .rateLimited :=
  ⟨(rate_limit_quota 0 10 20 30 60 (by omega) (by omega) (by omega) (by omega)
      (by omega)).1,
   (rate_limit_quota 0 10 20 30 60 (by omega) (by omega) (by omega) (by omega)
      (by omega)).2.1 30 (some ⟨0, 3⟩) ⟨"q", "local", []⟩ none (.ok []) [] none
      (by decide),
   (rate_limit_quota 0 10 20 30 60 (by omega) (by omega) (by omega) (by omega)
      (by omega)).2.2 0 none ⟨"q", "local", []⟩ none (.ok []) [] none
      (by decide)⟩

/-- Every piece of the character-level fallback is at most `size` long,
provided the overlap is smaller than the chunk size. -/
theorem char_chunks_le {size overlap : Nat} (hov : overlap < size) :
    ∀ (n : Nat) (l : List Char), l.length ≤ n →
      ∀ c ∈ char_chunks size overlap l, c.length ≤ size := by
  intro n
  induction n with
  | zero =>
      intro l hl c hc
      have hnil : l = [] := List.length_eq_zero.mp (Nat.le_zero.mp hl)
      subst hnil
      rw [char_chunks] at hc
      simp at hc
  | succ n ih =>
      intro l hl c hc
      rw [char_chunks] at hc
      split_ifs at hc with h1 h2 h3
      · simp at hc
      · omega
      · rw [List.mem_singleton] at hc
        subst hc
        exact h3
      · rcases List.mem_cons.mp hc with rfl | hc'
        · rw [List.length_take]
          omega
        · exact ih (l.drop (size - overlap))
            (by rw [List.length_drop]; omega) c hc'

/-- Every chunk of the recursive splitter is at most `size` long, for any
separator priority list, provided the overlap is smaller than the chunk
size. -/
theorem recursive_split_le {size overlap : Nat} (hov : overlap < size) :
    ∀ (seps : List String) (t c : String),
      c ∈ recursive_split size overlap seps t → c.length ≤ size := by
  intro seps
  induction seps with
  | nil =>
      intro t c hc
      simp only [recursive_split] at hc
      rw [List.mem_map] at hc
      obtain ⟨l, hl, rfl⟩ := hc
      exact char_chunks_le hov t.toList.length t.toList le_rfl l hl
  | cons sep rest ih =>
      intro t c hc
      rw [recursive_split] at hc
      split_ifs at hc with h1
      · rw [List.mem_singleton] at hc
        subst hc
        exact h1
      · rw [List.mem_flatten] at hc
        obtain ⟨pl, hpl, hcpl⟩ := hc
        rw [List.mem_map] at hpl
        obtain ⟨p, hp, rfl⟩ := hpl
        by_cases h2 : p.length ≤ size
        · rw [if_pos h2, List.mem_singleton] at hcpl
          subst hcpl
          exact h2
        · rw [if_neg h2] at hcpl
          exact ih p c hcpl

/-- C9: for every text and every chunk-size/overlap configuration with
overlap < chunk size, every chunk produced by the splitter (which tries the
separators in the priority order paragraph, line, word, character) is at
most the configured maximum long; in particular every chunk the ingestion
pipeline produces (size 1000, overlap 200) is at most 1000 characters. -/
theorem chunk_size_bounded (size overlap : Nat) (t : String) (d : RawDoc)
    (hov : overlap < size) :
    (∀ c ∈ split_text size overlap t, c.length ≤ size) ∧
    (∀ c ∈ split_document 1000 200 d, c.page_content.length ≤ 1000) := by
  constructor
  · intro c hc
    exact recursive_split_le hov separators t c (List.mem_of_mem_filter hc)
  · intro c hc
    rw [split_document, List.mem_map] at hc
    obtain ⟨p, hp, rfl⟩ := hc
    exact recursive_split_le (by omega) separators d.text p
      (List.mem_of_mem_filter hp)

/-- C9 witness: a concrete text and document run through the splitter. -/
theorem chunk_size_bounded_witness :
    String.length "hi" ≤ 5 ∧ String.length "hello" ≤ 1000 :=
  ⟨(chunk_size_bounded 5 2 "hi" ⟨"f.md", "hello"⟩ (by omega)).1 "hi"
      (by decide),
   (chunk_size_bounded 5 2 "hi" ⟨"f.md", "hello"⟩ (by omega)).2
      ⟨"hello", some "f.md"⟩ (by decide)⟩

end SmartDocs
